import Mathlib

/-
Verification development for the R2X branch model (`src/r2x/models/branch.py`).

Embedding conventions:
* Python floats are embedded as rationals (ℚ); every value occurring in the
  source and the spec is a small integer, so no floating-point behaviour is
  involved.
* Pydantic construction-time validation is embedded as a `construct` function
  per concrete class, returning `Except ValidationError`.  An omitted keyword
  argument is `none` in the corresponding `…Args` record; required-field
  presence is checked first, then per-field sign constraints, as §4.4 of the
  spec describes the validation order.
* The classes `MinMax`, `Device` (from `r2x.models.core`), the quantity types
  (from `r2x.units`) and the topology classes (from `r2x.models.topology`)
  are code of the repository that is not under `src/`; those definitions are
  modelled from the spec and say so in their doc comments.  Everything else
  is translated directly from `src/r2x/models/branch.py`.
-/

namespace R2X

/-- Modelled from the spec: the validation-error taxonomy of §7
(`MissingFieldError`, `RangeViolationError`, `SignConstraintError`,
`UnitMismatchError`), each identifying the offending field.  The concrete
error classes live outside `src/`. -/
inductive ValidationError where
  | missingField (field : String)
  | rangeViolation (field : String)
  | signConstraint (field : String)
  | unitMismatch (field : String)
  deriving DecidableEq, Repr

/-- Modelled from the spec: a `Quantity` from `r2x.units` (not under `src/`):
a numeric magnitude tagged with a unit string (§3).  Sign constraints on
quantity-valued fields compare the canonical magnitude with zero (§4.2). -/
structure Quantity where
  magnitude : ℚ
  unit : String
  deriving DecidableEq, Repr

/-- Modelled from the spec: `ActivePower(value, unit)` from `r2x.units`
(not under `src/`) constructs a power quantity. -/
def ActivePower (magnitude : ℚ) (unit : String) : Quantity :=
  { magnitude := magnitude, unit := unit }

/-- Modelled from the spec: `Percentage(value, unit)` from `r2x.units`
(not under `src/`) constructs a percentage quantity. -/
def Percentage (magnitude : ℚ) (unit : String) : Quantity :=
  { magnitude := magnitude, unit := unit }

/-- Modelled from the spec: `MinMax` from `r2x.models.core` (not under
`src/`): an ordered pair (min, max) of floats (§3). -/
structure MinMax where
  min : ℚ
  max : ℚ
  deriving DecidableEq, Repr

/-- Modelled from the spec: `MinMax` construction enforces `min ≤ max`,
rejecting violations with `RangeViolationError` (§3, §4.1, §8). -/
def MinMax.construct (mn mx : ℚ) : Except ValidationError MinMax :=
  if mn ≤ mx then Except.ok { min := mn, max := mx }
  else Except.error (ValidationError.rangeViolation "min_max")

/-- Modelled from the spec: a generic `Bus` reference from
`r2x.models.topology` (not under `src/`); branches hold it as a non-owning
reference, so only its identity matters here. -/
structure Bus where
  name : String
  deriving DecidableEq, Repr

/-- Modelled from the spec: the `ACBus` topology reference
(not under `src/`). -/
structure ACBus where
  name : String
  deriving DecidableEq, Repr

/-- Modelled from the spec: the `DCBus` topology reference
(not under `src/`). -/
structure DCBus where
  name : String
  deriving DecidableEq, Repr

/-- Modelled from the spec: the `Area` topology reference
(not under `src/`). -/
structure Area where
  name : String
  deriving DecidableEq, Repr

/-- An `ACBus` used where a generic `Bus` reference is expected. -/
def ACBus.toBus (b : ACBus) : Bus := { name := b.name }

/-- A `DCBus` used where a generic `Bus` reference is expected. -/
def DCBus.toBus (b : DCBus) : Bus := { name := b.name }

/-- Modelled from the spec: `ACBus.example()` (topology module, not under
`src/`) returns a fixed reference bus (§4.4: fixed reference data). -/
def ACBus.example : ACBus := { name := "ExampleACBus" }

/-- Modelled from the spec: `DCBus.example()` (topology module, not under
`src/`) returns a fixed reference bus. -/
def DCBus.example : DCBus := { name := "ExampleDCBus" }

/-- Modelled from the spec: `Area.example()` (topology module, not under
`src/`) returns a fixed reference area. -/
def Area.example : Area := { name := "ExampleArea" }

/-- Required-field presence check: an absent field fails construction with
`MissingFieldError` naming the field (spec §7, pydantic required fields). -/
def require {α : Type} (field : String) : Option α → Except ValidationError α
  | some v => Except.ok v
  | none => Except.error (ValidationError.missingField field)

/-- `Field(ge=0)` on a plain float: reject negative values with
`SignConstraintError`. -/
def checkGeZero (field : String) (v : ℚ) : Except ValidationError Unit :=
  if 0 ≤ v then Except.ok () else Except.error (ValidationError.signConstraint field)

/-- `Field(le=0)` on a plain float: reject positive values with
`SignConstraintError`. -/
def checkLeZero (field : String) (v : ℚ) : Except ValidationError Unit :=
  if v ≤ 0 then Except.ok () else Except.error (ValidationError.signConstraint field)

/-- `Field(ge=0)` on an optional quantity-valued field: validated only when
present, comparing the canonical magnitude with zero. -/
def checkOptQuantityGe (field : String) : Option Quantity → Except ValidationError Unit
  | none => Except.ok ()
  | some q => checkGeZero field q.magnitude

/-- `Field(le=0)` on an optional quantity-valued field. -/
def checkOptQuantityLe (field : String) : Option Quantity → Except ValidationError Unit
  | none => Except.ok ()
  | some q => checkLeZero field q.magnitude

/-- `NonNegativeFloat | None`: validated only when a numeric value is
present. -/
def checkOptGeZero (field : String) : Option ℚ → Except ValidationError Unit
  | none => Except.ok ()
  | some v => checkGeZero field v

/-- `NonPositiveFloat | None`: validated only when a numeric value is
present. -/
def checkOptLeZero (field : String) : Option ℚ → Except ValidationError Unit
  | none => Except.ok ()
  | some v => checkLeZero field v

/-- Keyword arguments accepted by `Branch(...)`: only the `Device` identity
field `name` (required). -/
structure BranchArgs where
  name : Option String := none

/-- `class Branch(Device)`: a connection between components, no fields beyond
the `Device` identity. -/
structure Branch where
  name : String
  deriving DecidableEq, Repr

/-- Construction of `Branch`: the required `name` must be present. -/
def Branch.construct (a : BranchArgs) : Except ValidationError Branch := do
  let name ← require "name" a.name
  pure { name := name }

/-- `Branch.example()` from the source: `Branch(name="ExampleBranch")`. -/
def Branch.example : Except ValidationError Branch :=
  Branch.construct { name := some "ExampleBranch" }

/-- Keyword arguments accepted by `ACBranch(...)`; `none` means the keyword
was omitted.  Defaults in the source: every field other than `name`,
`from_bus` and `to_bus` defaults to `None`. -/
structure ACBranchArgs where
  name : Option String := none
  from_bus : Option ACBus := none
  to_bus : Option ACBus := none
  r : Option ℚ := none
  x : Option ℚ := none
  primary_shunt : Option ℚ := none
  rating : Option Quantity := none
  active_power_flow : Option Quantity := none
  reactive_power_flow : Option Quantity := none
  angle_limits : Option MinMax := none

/-- `class ACBranch(Branch)` of `branch.py`: required `from_bus`/`to_bus`,
unconstrained optional `r`, `x`, `primary_shunt`, `Field(ge=0)` optional
`rating`, `active_power_flow`, `reactive_power_flow`, optional
`angle_limits : MinMax | None`. -/
structure ACBranch where
  name : String
  from_bus : ACBus
  to_bus : ACBus
  r : Option ℚ
  x : Option ℚ
  primary_shunt : Option ℚ
  rating : Option Quantity
  active_power_flow : Option Quantity
  reactive_power_flow : Option Quantity
  angle_limits : Option MinMax
  deriving DecidableEq, Repr

/-- Construction-time validation of `ACBranch`: required fields first, then
the `ge=0` constraints on `rating`, `active_power_flow`,
`reactive_power_flow` (spec §4.4 order). -/
def ACBranch.construct (a : ACBranchArgs) : Except ValidationError ACBranch := do
  let name ← require "name" a.name
  let fb ← require "from_bus" a.from_bus
  let tb ← require "to_bus" a.to_bus
  checkOptQuantityGe "rating" a.rating
  checkOptQuantityGe "active_power_flow" a.active_power_flow
  checkOptQuantityGe "reactive_power_flow" a.reactive_power_flow
  pure { name := name, from_bus := fb, to_bus := tb, r := a.r, x := a.x,
         primary_shunt := a.primary_shunt, rating := a.rating,
         active_power_flow := a.active_power_flow,
         reactive_power_flow := a.reactive_power_flow,
         angle_limits := a.angle_limits }

/-- `ACBranch.serialize_angle_limits` from the source: returns the two-key
dict when the value is present; the Python function implicitly returns
`None` otherwise. -/
def ACBranch.serialize_angle_limits : Option MinMax → Option (List (String × ℚ))
  | some m => some [("min", m.min), ("max", m.max)]
  | none => none

/-- Keyword arguments accepted by `MonitoredLine(...)`. -/
structure MonitoredLineArgs extends ACBranchArgs where
  rating_up : Option Quantity := none
  rating_down : Option Quantity := none
  losses : Option Quantity := none

/-- `class MonitoredLine(ACBranch)`: adds `Field(ge=0)` optional `rating_up`,
`Field(le=0)` optional `rating_down` and an unconstrained optional
`losses` percentage. -/
structure MonitoredLine extends ACBranch where
  rating_up : Option Quantity
  rating_down : Option Quantity
  losses : Option Quantity
  deriving DecidableEq, Repr

/-- Construction-time validation of `MonitoredLine`: the inherited `ACBranch`
validation plus the sign constraints on `rating_up`/`rating_down`. -/
def MonitoredLine.construct (a : MonitoredLineArgs) :
    Except ValidationError MonitoredLine := do
  let base ← ACBranch.construct a.toACBranchArgs
  checkOptQuantityGe "rating_up" a.rating_up
  checkOptQuantityLe "rating_down" a.rating_down
  pure { toACBranch := base, rating_up := a.rating_up,
         rating_down := a.rating_down, losses := a.losses }

/-- `MonitoredLine.example()` from the source. -/
def MonitoredLine.example : Except ValidationError MonitoredLine :=
  MonitoredLine.construct
    { name := some "ExampleMonitoredLine",
      from_bus := some ACBus.example,
      to_bus := some ACBus.example,
      losses := some (Percentage 10 "%"),
      rating_up := some (ActivePower 100 "MW"),
      rating_down := some (ActivePower (-100) "MW"),
      rating := some (ActivePower 100 "MW") }

/-- `class Line(ACBranch)`: no extra fields. -/
structure Line extends ACBranch
  deriving DecidableEq, Repr

/-- Construction-time validation of `Line`: exactly the `ACBranch`
validation. -/
def Line.construct (a : ACBranchArgs) : Except ValidationError Line := do
  let base ← ACBranch.construct a
  pure { toACBranch := base }

/-- `Line.example()` from the source. -/
def Line.example : Except ValidationError Line :=
  Line.construct
    { name := some "ExampleLine",
      from_bus := some ACBus.example,
      to_bus := some ACBus.example,
      rating := some (ActivePower 100 "MW") }

/-- `class Transformer2W(ACBranch)`: no extra fields. -/
structure Transformer2W extends ACBranch
  deriving DecidableEq, Repr

/-- Construction-time validation of `Transformer2W`: exactly the `ACBranch`
validation. -/
def Transformer2W.construct (a : ACBranchArgs) : Except ValidationError Transformer2W := do
  let base ← ACBranch.construct a
  pure { toACBranch := base }

/-- `Transformer2W.example()` from the source. -/
def Transformer2W.example : Except ValidationError Transformer2W :=
  Transformer2W.construct
    { name := some "Example2WTransformer",
      rating := some (ActivePower 100 "MW"),
      from_bus := some ACBus.example,
      to_bus := some ACBus.example }

/-- Keyword arguments accepted by `DCBranch(...)`. -/
structure DCBranchArgs where
  name : Option String := none
  from_bus : Option Bus := none
  to_bus : Option Bus := none
  active_power_flow : Option Quantity := none
  active_power_limits_from : Option MinMax := none
  active_power_limits_to : Option MinMax := none
  reactive_power_limits_from : Option MinMax := none
  reactive_power_limits_to : Option MinMax := none

/-- `class DCBranch(Branch)` of `branch.py`: required generic-`Bus`
`from_bus`/`to_bus`, `Field(ge=0)` optional `active_power_flow`, and four
optional `MinMax` limit fields. -/
structure DCBranch where
  name : String
  from_bus : Bus
  to_bus : Bus
  active_power_flow : Option Quantity
  active_power_limits_from : Option MinMax
  active_power_limits_to : Option MinMax
  reactive_power_limits_from : Option MinMax
  reactive_power_limits_to : Option MinMax
  deriving DecidableEq, Repr

/-- Construction-time validation of `DCBranch`. -/
def DCBranch.construct (a : DCBranchArgs) : Except ValidationError DCBranch := do
  let name ← require "name" a.name
  let fb ← require "from_bus" a.from_bus
  let tb ← require "to_bus" a.to_bus
  checkOptQuantityGe "active_power_flow" a.active_power_flow
  pure { name := name, from_bus := fb, to_bus := tb,
         active_power_flow := a.active_power_flow,
         active_power_limits_from := a.active_power_limits_from,
         active_power_limits_to := a.active_power_limits_to,
         reactive_power_limits_from := a.reactive_power_limits_from,
         reactive_power_limits_to := a.reactive_power_limits_to }

/-- `DCBranch.serialize_active_power_limits_from` from the source. -/
def DCBranch.serialize_active_power_limits_from :
    Option MinMax → Option (List (String × ℚ))
  | some m => some [("min", m.min), ("max", m.max)]
  | none => none

/-- `DCBranch.serialize_active_power_limits_to` from the source. -/
def DCBranch.serialize_active_power_limits_to :
    Option MinMax → Option (List (String × ℚ))
  | some m => some [("min", m.min), ("max", m.max)]
  | none => none

/-- `DCBranch.serialize_reactive_power_limits_from` from the source. -/
def DCBranch.serialize_reactive_power_limits_from :
    Option MinMax → Option (List (String × ℚ))
  | some m => some [("min", m.min), ("max", m.max)]
  | none => none

/-- `DCBranch.serialize_reactive_power_limits_to` from the source. -/
def DCBranch.serialize_reactive_power_limits_to :
    Option MinMax → Option (List (String × ℚ))
  | some m => some [("min", m.min), ("max", m.max)]
  | none => none

/-- The five `MinMax` field serializers declared in `branch.py`. -/
def minMaxSerializers : List (Option MinMax → Option (List (String × ℚ))) :=
  [ACBranch.serialize_angle_limits,
   DCBranch.serialize_active_power_limits_from,
   DCBranch.serialize_active_power_limits_to,
   DCBranch.serialize_reactive_power_limits_from,
   DCBranch.serialize_reactive_power_limits_to]

/-- Modelled from the spec: the model-dump step (serialization machinery in
`r2x.models.core`, not under `src/`) writes a present optional field as a
name/value pair and omits a field whose serialized value is `None`, rather
than emitting a null (§4.1, §6). -/
def dumpOptField (field : String)
    (ser : Option MinMax → Option (List (String × ℚ)))
    (v : Option MinMax) : List (String × List (String × ℚ)) :=
  match ser v with
  | some s => [(field, s)]
  | none => []

/-- Keyword arguments accepted by `AreaInterchange(...)`. -/
structure AreaInterchangeArgs where
  name : Option String := none
  max_power_flow : Option Quantity := none
  min_power_flow : Option Quantity := none
  from_area : Option Area := none
  to_area : Option Area := none

/-- `class AreaInterchange(Branch)`: required `Field(ge=0)` `max_power_flow`
and `Field(le=0)` `min_power_flow`, optional area references. -/
structure AreaInterchange where
  name : String
  max_power_flow : Quantity
  min_power_flow : Quantity
  from_area : Option Area
  to_area : Option Area
  deriving DecidableEq, Repr

/-- Construction-time validation of `AreaInterchange`: required fields first,
then the sign constraints. -/
def AreaInterchange.construct (a : AreaInterchangeArgs) :
    Except ValidationError AreaInterchange := do
  let name ← require "name" a.name
  let mx ← require "max_power_flow" a.max_power_flow
  let mn ← require "min_power_flow" a.min_power_flow
  checkGeZero "max_power_flow" mx.magnitude
  checkLeZero "min_power_flow" mn.magnitude
  pure { name := name, max_power_flow := mx, min_power_flow := mn,
         from_area := a.from_area, to_area := a.to_area }

/-- `AreaInterchange.example()` from the source. -/
def AreaInterchange.example : Except ValidationError AreaInterchange :=
  AreaInterchange.construct
    { name := some "ExampleAreaInterchange",
      max_power_flow := some (ActivePower 100 "MW"),
      min_power_flow := some (ActivePower (-100) "MW"),
      from_area := some Area.example,
      to_area := some Area.example }

/-- Keyword arguments accepted by `TModelHVDCLine(...)`.  The outer `Option`
distinguishes an omitted keyword (`none`, so the source default applies)
from an explicitly passed value; the inner `Option ℚ` is Python's
`float | None`. -/
structure TModelHVDCLineArgs extends DCBranchArgs where
  rating_up : Option (Option ℚ) := none
  rating_down : Option (Option ℚ) := none
  losses : Option ℚ := none
  resistance : Option (Option ℚ) := none
  inductance : Option (Option ℚ) := none
  capacitance : Option (Option ℚ) := none

/-- `class TModelHVDCLine(DCBranch)`: `NonNegativeFloat | None` `rating_up`
(default `None`), `NonPositiveFloat | None` `rating_down` (default `None`),
`NonNegativeFloat` `losses` (default `0`), and `NonNegativeFloat | None`
`resistance`/`inductance`/`capacitance`, each with default `0`. -/
structure TModelHVDCLine extends DCBranch where
  rating_up : Option ℚ
  rating_down : Option ℚ
  losses : ℚ
  resistance : Option ℚ
  inductance : Option ℚ
  capacitance : Option ℚ
  deriving DecidableEq, Repr

/-- Construction-time validation of `TModelHVDCLine`: the inherited
`DCBranch` validation, the source defaults for omitted keywords, then the
sign constraints of the field annotations (validated only on numeric
values; an explicit `None` passes the `| None` branch of the union). -/
def TModelHVDCLine.construct (a : TModelHVDCLineArgs) :
    Except ValidationError TModelHVDCLine := do
  let base ← DCBranch.construct a.toDCBranchArgs
  checkOptGeZero "rating_up" (a.rating_up.getD none)
  checkOptLeZero "rating_down" (a.rating_down.getD none)
  checkGeZero "losses" (a.losses.getD 0)
  checkOptGeZero "resistance" (a.resistance.getD (some 0))
  checkOptGeZero "inductance" (a.inductance.getD (some 0))
  checkOptGeZero "capacitance" (a.capacitance.getD (some 0))
  pure { toDCBranch := base, rating_up := a.rating_up.getD none,
         rating_down := a.rating_down.getD none,
         losses := a.losses.getD 0,
         resistance := a.resistance.getD (some 0),
         inductance := a.inductance.getD (some 0),
         capacitance := a.capacitance.getD (some 0) }

/-- `TModelHVDCLine.example()` from the source: passes `rating_up=100` and
`rating_down=80`, omitting `losses`, `resistance`, `inductance` and
`capacitance`. -/
def TModelHVDCLine.example : Except ValidationError TModelHVDCLine :=
  TModelHVDCLine.construct
    { name := some "ExampleDCLine",
      from_bus := some DCBus.example.toBus,
      to_bus := some DCBus.example.toBus,
      rating_up := some (some 100),
      rating_down := some (some 80) }

/-! ### Inversion lemmas for the constructors -/

/-- Inverting a successful `Except` bind. -/
theorem bind_ok_inv {ε α β : Type} {x : Except ε α} {f : α → Except ε β} {b : β}
    (h : x >>= f = Except.ok b) : ∃ a, x = Except.ok a ∧ f a = Except.ok b := by
  cases x with
  | error e => simp [Bind.bind, Except.bind] at h
  | ok a => exact ⟨a, rfl, h⟩

/-- A successful `require` means the field was supplied. -/
theorem require_ok {α : Type} {f : String} {o : Option α} {v : α}
    (h : require f o = Except.ok v) : o = some v := by
  cases o with
  | none => simp [require] at h
  | some w =>
    simp only [require, Except.ok.injEq] at h
    rw [h]

/-- A passed `ge=0` check means the value is nonnegative. -/
theorem checkGeZero_ok {f : String} {v : ℚ} (h : checkGeZero f v = Except.ok ()) :
    0 ≤ v := by
  unfold checkGeZero at h
  split at h
  · assumption
  · cases h

/-- A passed `le=0` check means the value is nonpositive. -/
theorem checkLeZero_ok {f : String} {v : ℚ} (h : checkLeZero f v = Except.ok ()) :
    v ≤ 0 := by
  unfold checkLeZero at h
  split at h
  · assumption
  · cases h

/-- A passed optional-quantity `ge=0` check bounds any present value. -/
theorem checkOptQuantityGe_ok {f : String} {o : Option Quantity}
    (h : checkOptQuantityGe f o = Except.ok ()) :
    ∀ q, o = some q → 0 ≤ q.magnitude := by
  intro q hq
  subst hq
  exact checkGeZero_ok h

/-- A passed optional-quantity `le=0` check bounds any present value. -/
theorem checkOptQuantityLe_ok {f : String} {o : Option Quantity}
    (h : checkOptQuantityLe f o = Except.ok ()) :
    ∀ q, o = some q → q.magnitude ≤ 0 := by
  intro q hq
  subst hq
  exact checkLeZero_ok h

/-- A passed optional-float `ge=0` check bounds any present value. -/
theorem checkOptGeZero_ok {f : String} {o : Option ℚ}
    (h : checkOptGeZero f o = Except.ok ()) :
    ∀ v, o = some v → 0 ≤ v := by
  intro v hv
  subst hv
  exact checkGeZero_ok h

/-- A passed optional-float `le=0` check bounds any present value. -/
theorem checkOptLeZero_ok {f : String} {o : Option ℚ}
    (h : checkOptLeZero f o = Except.ok ()) :
    ∀ v, o = some v → v ≤ 0 := by
  intro v hv
  subst hv
  exact checkLeZero_ok h

/-- Everything a successful `ACBranch` construction guarantees: which
arguments were present, how the fields were filled, and the sign
constraints. -/
theorem acBranch_construct_ok {a : ACBranchArgs} {br : ACBranch}
    (h : ACBranch.construct a = Except.ok br) :
    a.name = some br.name ∧ a.from_bus = some br.from_bus ∧
    a.to_bus = some br.to_bus ∧
    br.r = a.r ∧ br.x = a.x ∧ br.primary_shunt = a.primary_shunt ∧
    br.rating = a.rating ∧ br.active_power_flow = a.active_power_flow ∧
    br.reactive_power_flow = a.reactive_power_flow ∧
    br.angle_limits = a.angle_limits ∧
    (∀ q, a.rating = some q → 0 ≤ q.magnitude) ∧
    (∀ q, a.active_power_flow = some q → 0 ≤ q.magnitude) ∧
    (∀ q, a.reactive_power_flow = some q → 0 ≤ q.magnitude) := by
  unfold ACBranch.construct at h
  obtain ⟨name, hn, h⟩ := bind_ok_inv h
  obtain ⟨fb, hf, h⟩ := bind_ok_inv h
  obtain ⟨tb, ht, h⟩ := bind_ok_inv h
  obtain ⟨u1, hr, h⟩ := bind_ok_inv h
  obtain ⟨u2, hapf, h⟩ := bind_ok_inv h
  obtain ⟨u3, hrpf, h⟩ := bind_ok_inv h
  cases u1; cases u2; cases u3
  injection h with h
  subst h
  exact ⟨require_ok hn, require_ok hf, require_ok ht, rfl, rfl, rfl, rfl, rfl,
    rfl, rfl, checkOptQuantityGe_ok hr, checkOptQuantityGe_ok hapf,
    checkOptQuantityGe_ok hrpf⟩

/-- Everything a successful `MonitoredLine` construction guarantees. -/
theorem monitoredLine_construct_ok {a : MonitoredLineArgs} {ml : MonitoredLine}
    (h : MonitoredLine.construct a = Except.ok ml) :
    ACBranch.construct a.toACBranchArgs = Except.ok ml.toACBranch ∧
    ml.rating_up = a.rating_up ∧ ml.rating_down = a.rating_down ∧
    ml.losses = a.losses ∧
    (∀ q, a.rating_up = some q → 0 ≤ q.magnitude) ∧
    (∀ q, a.rating_down = some q → q.magnitude ≤ 0) := by
  unfold MonitoredLine.construct at h
  obtain ⟨base, hb, h⟩ := bind_ok_inv h
  obtain ⟨u1, hru, h⟩ := bind_ok_inv h
  obtain ⟨u2, hrd, h⟩ := bind_ok_inv h
  cases u1; cases u2
  injection h with h
  subst h
  exact ⟨hb, rfl, rfl, rfl, checkOptQuantityGe_ok hru, checkOptQuantityLe_ok hrd⟩

/-- A successful `Line` construction is a successful `ACBranch`
construction. -/
theorem line_construct_ok {a : ACBranchArgs} {l : Line}
    (h : Line.construct a = Except.ok l) :
    ACBranch.construct a = Except.ok l.toACBranch := by
  unfold Line.construct at h
  obtain ⟨base, hb, h⟩ := bind_ok_inv h
  injection h with h
  subst h
  exact hb

/-- A successful `Transformer2W` construction is a successful `ACBranch`
construction. -/
theorem transformer2W_construct_ok {a : ACBranchArgs} {t : Transformer2W}
    (h : Transformer2W.construct a = Except.ok t) :
    ACBranch.construct a = Except.ok t.toACBranch := by
  unfold Transformer2W.construct at h
  obtain ⟨base, hb, h⟩ := bind_ok_inv h
  injection h with h
  subst h
  exact hb

/-- Everything a successful `DCBranch` construction guarantees. -/
theorem dcBranch_construct_ok {a : DCBranchArgs} {d : DCBranch}
    (h : DCBranch.construct a = Except.ok d) :
    a.name = some d.name ∧ a.from_bus = some d.from_bus ∧
    a.to_bus = some d.to_bus ∧
    d.active_power_flow = a.active_power_flow ∧
    d.active_power_limits_from = a.active_power_limits_from ∧
    d.active_power_limits_to = a.active_power_limits_to ∧
    d.reactive_power_limits_from = a.reactive_power_limits_from ∧
    d.reactive_power_limits_to = a.reactive_power_limits_to ∧
    (∀ q, a.active_power_flow = some q → 0 ≤ q.magnitude) := by
  unfold DCBranch.construct at h
  obtain ⟨name, hn, h⟩ := bind_ok_inv h
  obtain ⟨fb, hf, h⟩ := bind_ok_inv h
  obtain ⟨tb, ht, h⟩ := bind_ok_inv h
  obtain ⟨u1, hapf, h⟩ := bind_ok_inv h
  cases u1
  injection h with h
  subst h
  exact ⟨require_ok hn, require_ok hf, require_ok ht, rfl, rfl, rfl, rfl, rfl,
    checkOptQuantityGe_ok hapf⟩

/-- Everything a successful `TModelHVDCLine` construction guarantees:
defaults for the omitted keywords and the sign constraints. -/
theorem tModelHVDCLine_construct_ok {a : TModelHVDCLineArgs}
    {t : TModelHVDCLine} (h : TModelHVDCLine.construct a = Except.ok t) :
    DCBranch.construct a.toDCBranchArgs = Except.ok t.toDCBranch ∧
    t.rating_up = a.rating_up.getD none ∧
    t.rating_down = a.rating_down.getD none ∧
    t.losses = a.losses.getD 0 ∧
    t.resistance = a.resistance.getD (some 0) ∧
    t.inductance = a.inductance.getD (some 0) ∧
    t.capacitance = a.capacitance.getD (some 0) ∧
    (∀ v, t.rating_up = some v → 0 ≤ v) ∧
    (∀ v, t.rating_down = some v → v ≤ 0) ∧
    0 ≤ t.losses ∧
    (∀ v, t.resistance = some v → 0 ≤ v) ∧
    (∀ v, t.inductance = some v → 0 ≤ v) ∧
    (∀ v, t.capacitance = some v → 0 ≤ v) := by
  unfold TModelHVDCLine.construct at h
  obtain ⟨base, hb, h⟩ := bind_ok_inv h
  obtain ⟨u1, hru, h⟩ := bind_ok_inv h
  obtain ⟨u2, hrd, h⟩ := bind_ok_inv h
  obtain ⟨u3, hls, h⟩ := bind_ok_inv h
  obtain ⟨u4, hrs, h⟩ := bind_ok_inv h
  obtain ⟨u5, hind, h⟩ := bind_ok_inv h
  obtain ⟨u6, hcap, h⟩ := bind_ok_inv h
  cases u1; cases u2; cases u3; cases u4; cases u5; cases u6
  injection h with h
  subst h
  exact ⟨hb, rfl, rfl, rfl, rfl, rfl, rfl, checkOptGeZero_ok hru,
    checkOptLeZero_ok hrd, checkGeZero_ok hls, checkOptGeZero_ok hrs,
    checkOptGeZero_ok hind, checkOptGeZero_ok hcap⟩

/-- Everything a successful `AreaInterchange` construction guarantees. -/
theorem areaInterchange_construct_ok {a : AreaInterchangeArgs}
    {ai : AreaInterchange} (h : AreaInterchange.construct a = Except.ok ai) :
    a.name = some ai.name ∧
    a.max_power_flow = some ai.max_power_flow ∧
    a.min_power_flow = some ai.min_power_flow ∧
    ai.from_area = a.from_area ∧ ai.to_area = a.to_area ∧
    0 ≤ ai.max_power_flow.magnitude ∧ ai.min_power_flow.magnitude ≤ 0 := by
  unfold AreaInterchange.construct at h
  obtain ⟨name, hn, h⟩ := bind_ok_inv h
  obtain ⟨mx, hmx, h⟩ := bind_ok_inv h
  obtain ⟨mn, hmn, h⟩ := bind_ok_inv h
  obtain ⟨u1, hge, h⟩ := bind_ok_inv h
  obtain ⟨u2, hle, h⟩ := bind_ok_inv h
  cases u1; cases u2
  injection h with h
  subst h
  exact ⟨require_ok hn, require_ok hmx, require_ok hmn, rfl, rfl,
    checkGeZero_ok hge, checkLeZero_ok hle⟩

/-! ### The claims -/

/-- Claim C1: the claim says every concrete Branch subtype's parameterless
`example()` passes construction-time validation, in particular
`TModelHVDCLine.example()`.  The examples of `Branch`, `MonitoredLine`,
`Line`, `Transformer2W` and `AreaInterchange` indeed construct successfully,
but `TModelHVDCLine.example()` passes `rating_down=80`, a positive value
into a `NonPositiveFloat | None` field, so its construction fails with a
sign-constraint violation on `rating_down`. -/
theorem C1_example_validation :
    (∃ b, Branch.example = Except.ok b) ∧
    (∃ m, MonitoredLine.example = Except.ok m) ∧
    (∃ l, Line.example = Except.ok l) ∧
    (∃ t, Transformer2W.example = Except.ok t) ∧
    (∃ ai, AreaInterchange.example = Except.ok ai) ∧
    TModelHVDCLine.example =
      Except.error (ValidationError.signConstraint "rating_down") :=
  ⟨⟨_, rfl⟩, ⟨_, rfl⟩, ⟨_, rfl⟩, ⟨_, rfl⟩, ⟨_, rfl⟩, rfl⟩

/-- Claim C2: each of the five MinMax-valued optional fields, when present,
serializes to the two-key structure with keys `min` and `max`, and when
absent the field is omitted from the serialized output entirely. -/
theorem C2_minmax_field_serialization :
    ∀ s ∈ minMaxSerializers, ∀ (field : String) (m : MinMax),
      dumpOptField field s (some m) =
          [(field, [("min", m.min), ("max", m.max)])] ∧
      dumpOptField field s none = [] := by
  intro s hs field m
  fin_cases hs <;> exact ⟨rfl, rfl⟩

/-- Witness for C2, instantiated at the `angle_limits` serializer and the
range (5, 10). -/
theorem C2_minmax_field_serialization_witness :
    dumpOptField "angle_limits" ACBranch.serialize_angle_limits
        (some { min := 5, max := 10 }) =
      [("angle_limits", [("min", (5 : ℚ)), ("max", 10)])] ∧
    dumpOptField "angle_limits" ACBranch.serialize_angle_limits none = [] :=
  C2_minmax_field_serialization ACBranch.serialize_angle_limits
    (by simp [minMaxSerializers]) "angle_limits" { min := 5, max := 10 }

/-- Claim C3: every successfully constructed `MinMax` satisfies `min ≤ max`;
`MinMax(min=10, max=5)` fails with `RangeViolationError`, while
`MinMax(min=5, max=10)` succeeds and serializes to min 5 / max 10. -/
theorem C3_minmax_invariant :
    (∀ (mn mx : ℚ) (m : MinMax),
        MinMax.construct mn mx = Except.ok m → m.min ≤ m.max) ∧
    MinMax.construct 10 5 =
      Except.error (ValidationError.rangeViolation "min_max") ∧
    MinMax.construct 5 10 = Except.ok { min := 5, max := 10 } ∧
    ACBranch.serialize_angle_limits (some { min := 5, max := 10 }) =
      some [("min", 5), ("max", 10)] := by
  refine ⟨?_, rfl, rfl, rfl⟩
  intro mn mx m h
  unfold MinMax.construct at h
  split at h
  · injection h with h
    subst h
    assumption
  · cases h

/-- Witness for C3, instantiated at the range (2, 7). -/
theorem C3_minmax_invariant_witness :
    ({ min := 2, max := 7 } : MinMax).min ≤
      ({ min := 2, max := 7 } : MinMax).max :=
  C3_minmax_invariant.1 2 7 { min := 2, max := 7 } rfl

/-- Claim C4: a constructed `MonitoredLine` or `TModelHVDCLine` has
`rating_up ≥ 0` and `rating_down ≤ 0` whenever those fields are present,
and constructing a `MonitoredLine` with `rating_down=50` fails with a
sign-constraint error. -/
theorem C4_rating_sign_constraints :
    (∀ (a : MonitoredLineArgs) (ml : MonitoredLine),
        MonitoredLine.construct a = Except.ok ml →
        (∀ q, ml.rating_up = some q → 0 ≤ q.magnitude) ∧
        (∀ q, ml.rating_down = some q → q.magnitude ≤ 0)) ∧
    (∀ (a : TModelHVDCLineArgs) (t : TModelHVDCLine),
        TModelHVDCLine.construct a = Except.ok t →
        (∀ v, t.rating_up = some v → 0 ≤ v) ∧
        (∀ v, t.rating_down = some v → v ≤ 0)) ∧
    MonitoredLine.construct
        { name := some "BadLine", from_bus := some ACBus.example,
          to_bus := some ACBus.example,
          rating_down := some (ActivePower 50 "MW") } =
      Except.error (ValidationError.signConstraint "rating_down") := by
  refine ⟨?_, ?_, rfl⟩
  · intro a ml h
    obtain ⟨-, hup, hdn, -, h5, h6⟩ := monitoredLine_construct_ok h
    constructor
    · intro q hq
      exact h5 q (hup ▸ hq)
    · intro q hq
      exact h6 q (hdn ▸ hq)
  · intro a t h
    obtain ⟨-, -, -, -, -, -, -, h8, h9, -⟩ := tModelHVDCLine_construct_ok h
    exact ⟨h8, h9⟩

/-- Witness for C4, instantiated at the source's `MonitoredLine.example()`
arguments. -/
theorem C4_rating_sign_constraints_witness :
    (0 : ℚ) ≤ (ActivePower 100 "MW").magnitude ∧
    (ActivePower (-100) "MW").magnitude ≤ 0 := by
  have h := C4_rating_sign_constraints.1
    { name := some "ExampleMonitoredLine", from_bus := some ACBus.example,
      to_bus := some ACBus.example, losses := some (Percentage 10 "%"),
      rating_up := some (ActivePower 100 "MW"),
      rating_down := some (ActivePower (-100) "MW"),
      rating := some (ActivePower 100 "MW") } _ rfl
  exact ⟨h.1 _ rfl, h.2 _ rfl⟩

/-- Claim C5: `AreaInterchange` requires `max_power_flow` and
`min_power_flow` (a successful construction means both were supplied), the
constructed instance satisfies `max_power_flow ≥ 0` and
`min_power_flow ≤ 0`, and `max_power_flow=-10` fails with a sign-constraint
error. -/
theorem C5_area_interchange :
    (∀ (a : AreaInterchangeArgs) (ai : AreaInterchange),
        AreaInterchange.construct a = Except.ok ai →
        a.max_power_flow = some ai.max_power_flow ∧
        a.min_power_flow = some ai.min_power_flow ∧
        0 ≤ ai.max_power_flow.magnitude ∧
        ai.min_power_flow.magnitude ≤ 0) ∧
    AreaInterchange.construct
        { name := some "BadInterchange",
          max_power_flow := some (ActivePower (-10) "MW"),
          min_power_flow := some (ActivePower (-100) "MW") } =
      Except.error (ValidationError.signConstraint "max_power_flow") := by
  refine ⟨?_, rfl⟩
  intro a ai h
  obtain ⟨-, h2, h3, -, -, h6, h7⟩ := areaInterchange_construct_ok h
  exact ⟨h2, h3, h6, h7⟩

/-- Witness for C5, instantiated at the source's
`AreaInterchange.example()` arguments. -/
theorem C5_area_interchange_witness :
    (0 : ℚ) ≤ (ActivePower 100 "MW").magnitude ∧
    (ActivePower (-100) "MW").magnitude ≤ 0 := by
  have h := C5_area_interchange.1
    { name := some "ExampleAreaInterchange",
      max_power_flow := some (ActivePower 100 "MW"),
      min_power_flow := some (ActivePower (-100) "MW"),
      from_area := some Area.example, to_area := some Area.example } _ rfl
  exact ⟨h.2.2.1, h.2.2.2⟩

/-- Claim C6: on every successfully constructed AC branch (including the
subtypes `MonitoredLine`, `Line`, `Transformer2W`) the optional `rating`,
`active_power_flow` and `reactive_power_flow` are nonnegative when present;
likewise `active_power_flow` on every DC branch (including
`TModelHVDCLine`); and supplying a negative value for any of these fields
makes construction fail. -/
theorem C6_nonnegative_flow_fields :
    (∀ (a : ACBranchArgs) (br : ACBranch),
        ACBranch.construct a = Except.ok br →
        (∀ q, br.rating = some q → 0 ≤ q.magnitude) ∧
        (∀ q, br.active_power_flow = some q → 0 ≤ q.magnitude) ∧
        (∀ q, br.reactive_power_flow = some q → 0 ≤ q.magnitude)) ∧
    (∀ (a : MonitoredLineArgs) (ml : MonitoredLine),
        MonitoredLine.construct a = Except.ok ml →
        (∀ q, ml.rating = some q → 0 ≤ q.magnitude) ∧
        (∀ q, ml.active_power_flow = some q → 0 ≤ q.magnitude) ∧
        (∀ q, ml.reactive_power_flow = some q → 0 ≤ q.magnitude)) ∧
    (∀ (a : ACBranchArgs) (l : Line),
        Line.construct a = Except.ok l →
        (∀ q, l.rating = some q → 0 ≤ q.magnitude) ∧
        (∀ q, l.active_power_flow = some q → 0 ≤ q.magnitude) ∧
        (∀ q, l.reactive_power_flow = some q → 0 ≤ q.magnitude)) ∧
    (∀ (a : ACBranchArgs) (t : Transformer2W),
        Transformer2W.construct a = Except.ok t →
        (∀ q, t.rating = some q → 0 ≤ q.magnitude) ∧
        (∀ q, t.active_power_flow = some q → 0 ≤ q.magnitude) ∧
        (∀ q, t.reactive_power_flow = some q → 0 ≤ q.magnitude)) ∧
    (∀ (a : DCBranchArgs) (d : DCBranch),
        DCBranch.construct a = Except.ok d →
        ∀ q, d.active_power_flow = some q → 0 ≤ q.magnitude) ∧
    (∀ (a : TModelHVDCLineArgs) (t : TModelHVDCLine),
        TModelHVDCLine.construct a = Except.ok t →
        ∀ q, t.active_power_flow = some q → 0 ≤ q.magnitude) ∧
    (∀ (a : ACBranchArgs) (q : Quantity), a.rating = some q →
        q.magnitude < 0 → ∀ br, ACBranch.construct a ≠ Except.ok br) ∧
    (∀ (a : ACBranchArgs) (q : Quantity), a.active_power_flow = some q →
        q.magnitude < 0 → ∀ br, ACBranch.construct a ≠ Except.ok br) ∧
    (∀ (a : ACBranchArgs) (q : Quantity), a.reactive_power_flow = some q →
        q.magnitude < 0 → ∀ br, ACBranch.construct a ≠ Except.ok br) ∧
    (∀ (a : DCBranchArgs) (q : Quantity), a.active_power_flow = some q →
        q.magnitude < 0 → ∀ d, DCBranch.construct a ≠ Except.ok d) := by
  have hac : ∀ (a : ACBranchArgs) (br : ACBranch),
      ACBranch.construct a = Except.ok br →
      (∀ q, br.rating = some q → 0 ≤ q.magnitude) ∧
      (∀ q, br.active_power_flow = some q → 0 ≤ q.magnitude) ∧
      (∀ q, br.reactive_power_flow = some q → 0 ≤ q.magnitude) := by
    intro a br h
    obtain ⟨-, -, -, -, -, -, hr, hapf, hrpf, -, s1, s2, s3⟩ :=
      acBranch_construct_ok h
    refine ⟨?_, ?_, ?_⟩
    · intro q hq
      exact s1 q (hr ▸ hq)
    · intro q hq
      exact s2 q (hapf ▸ hq)
    · intro q hq
      exact s3 q (hrpf ▸ hq)
  have hdc : ∀ (a : DCBranchArgs) (d : DCBranch),
      DCBranch.construct a = Except.ok d →
      ∀ q, d.active_power_flow = some q → 0 ≤ q.magnitude := by
    intro a d h q hq
    obtain ⟨-, -, -, hapf, -, -, -, -, s⟩ := dcBranch_construct_ok h
    exact s q (hapf ▸ hq)
  refine ⟨hac, ?_, ?_, ?_, hdc, ?_, ?_, ?_, ?_, ?_⟩
  · intro a ml h
    exact hac a.toACBranchArgs ml.toACBranch (monitoredLine_construct_ok h).1
  · intro a l h
    exact hac a l.toACBranch (line_construct_ok h)
  · intro a t h
    exact hac a t.toACBranch (transformer2W_construct_ok h)
  · intro a t h
    exact hdc a.toDCBranchArgs t.toDCBranch (tModelHVDCLine_construct_ok h).1
  · intro a q hq hneg br hok
    obtain ⟨h1, -, -⟩ := hac a br hok
    obtain ⟨-, -, -, -, -, -, hr, -⟩ := acBranch_construct_ok hok
    exact absurd (h1 q (by rw [hr, hq])) (not_le.mpr hneg)
  · intro a q hq hneg br hok
    obtain ⟨-, h2, -⟩ := hac a br hok
    obtain ⟨-, -, -, -, -, -, -, hf, -⟩ := acBranch_construct_ok hok
    exact absurd (h2 q (by rw [hf, hq])) (not_le.mpr hneg)
  · intro a q hq hneg br hok
    obtain ⟨-, -, h3⟩ := hac a br hok
    obtain ⟨-, -, -, -, -, -, -, -, hf, -⟩ := acBranch_construct_ok hok
    exact absurd (h3 q (by rw [hf, hq])) (not_le.mpr hneg)
  · intro a q hq hneg d hok
    obtain ⟨-, -, -, hf, -⟩ := dcBranch_construct_ok hok
    exact absurd (hdc a d hok q (by rw [hf, hq])) (not_le.mpr hneg)

/-- Witness for C6, instantiated at the source's `Line.example()`
arguments. -/
theorem C6_nonnegative_flow_fields_witness :
    (0 : ℚ) ≤ (ActivePower 100 "MW").magnitude := by
  have h := C6_nonnegative_flow_fields.1
    { name := some "ExampleLine", from_bus := some ACBus.example,
      to_bus := some ACBus.example,
      rating := some (ActivePower 100 "MW") } _ rfl
  exact h.1 _ rfl

/-- Claim C7: constructing an `ACBranch` without `from_bus` fails, at
construction time, with a missing-field error; when the other required
fields are supplied the error names `from_bus` itself. -/
theorem C7_missing_from_bus :
    (∀ (a : ACBranchArgs), a.from_bus = none →
        ∃ f, ACBranch.construct a =
          Except.error (ValidationError.missingField f)) ∧
    (∀ (a : ACBranchArgs) (n : String), a.name = some n → a.from_bus = none →
        ACBranch.construct a =
          Except.error (ValidationError.missingField "from_bus")) := by
  constructor
  · intro a hfb
    cases hn : a.name with
    | none =>
      refine ⟨"name", ?_⟩
      unfold ACBranch.construct
      rw [hn]
      rfl
    | some n =>
      refine ⟨"from_bus", ?_⟩
      unfold ACBranch.construct
      rw [hn, hfb]
      rfl
  · intro a n hn hfb
    unfold ACBranch.construct
    rw [hn, hfb]
    rfl

/-- Witness for C7, instantiated at arguments that supply only `name`. -/
theorem C7_missing_from_bus_witness :
    ACBranch.construct { name := some "NoBusLine" } =
      Except.error (ValidationError.missingField "from_bus") :=
  C7_missing_from_bus.2 { name := some "NoBusLine" } "NoBusLine" rfl rfl

/-- Claim C8: `MonitoredLine.example()` constructs successfully with
`rating_up` = 100 MW, `rating_down` = -100 MW, `losses` = 10 %, and
`rating` = 100 MW. -/
theorem C8_monitored_line_example :
    MonitoredLine.example.map
        (fun ml => (ml.rating_up, ml.rating_down, ml.losses, ml.rating)) =
      Except.ok (some (ActivePower 100 "MW"), some (ActivePower (-100) "MW"),
        some (Percentage 10 "%"), some (ActivePower 100 "MW")) := rfl

/-- Claim C9: the four `DCBranch` MinMax field serializers and
`ACBranch.serialize_angle_limits` are pairwise extensionally equal. -/
theorem C9_serializers_extensionally_equal :
    ∀ v : Option MinMax,
      DCBranch.serialize_active_power_limits_from v =
          ACBranch.serialize_angle_limits v ∧
      DCBranch.serialize_active_power_limits_to v =
          ACBranch.serialize_angle_limits v ∧
      DCBranch.serialize_reactive_power_limits_from v =
          ACBranch.serialize_angle_limits v ∧
      DCBranch.serialize_reactive_power_limits_to v =
          ACBranch.serialize_angle_limits v ∧
      DCBranch.serialize_active_power_limits_to v =
          DCBranch.serialize_active_power_limits_from v ∧
      DCBranch.serialize_reactive_power_limits_from v =
          DCBranch.serialize_active_power_limits_to v ∧
      DCBranch.serialize_reactive_power_limits_to v =
          DCBranch.serialize_reactive_power_limits_from v := by
  intro v
  cases v <;> exact ⟨rfl, rfl, rfl, rfl, rfl, rfl, rfl⟩

/-- Claim C10: on `TModelHVDCLine`, explicitly passing `None` for
`resistance`, `inductance`, `capacitance`, `rating_up` or `rating_down`
succeeds and leaves the field holding `None`; the default of 0 for
`resistance`/`inductance`/`capacitance` applies only when the keyword is
omitted. -/
theorem C10_explicit_none_fields :
    (∀ (a : TModelHVDCLineArgs) (t : TModelHVDCLine),
        TModelHVDCLine.construct a = Except.ok t →
        (a.resistance = some none → t.resistance = none) ∧
        (a.resistance = none → t.resistance = some 0) ∧
        (a.inductance = some none → t.inductance = none) ∧
        (a.inductance = none → t.inductance = some 0) ∧
        (a.capacitance = some none → t.capacitance = none) ∧
        (a.capacitance = none → t.capacitance = some 0) ∧
        (a.rating_up = some none → t.rating_up = none) ∧
        (a.rating_down = some none → t.rating_down = none)) ∧
    (∃ t, TModelHVDCLine.construct
        { name := some "NoneLine", from_bus := some DCBus.example.toBus,
          to_bus := some DCBus.example.toBus,
          rating_up := some none, rating_down := some none,
          resistance := some none, inductance := some none,
          capacitance := some none } = Except.ok t ∧
      t.rating_up = none ∧ t.rating_down = none ∧ t.resistance = none ∧
      t.inductance = none ∧ t.capacitance = none) := by
  refine ⟨?_, ⟨_, rfl, rfl, rfl, rfl, rfl, rfl⟩⟩
  intro a t h
  obtain ⟨-, hru, hrd, -, hrs, hind, hcap, -⟩ := tModelHVDCLine_construct_ok h
  refine ⟨?_, ?_, ?_, ?_, ?_, ?_, ?_, ?_⟩ <;> intro he
  · rw [hrs, he]
    rfl
  · rw [hrs, he]
    rfl
  · rw [hind, he]
    rfl
  · rw [hind, he]
    rfl
  · rw [hcap, he]
    rfl
  · rw [hcap, he]
    rfl
  · rw [hru, he]
    rfl
  · rw [hrd, he]
    rfl

/-- Witness for C10, instantiated at arguments passing explicit `None` for
`resistance` and omitting `inductance`. -/
theorem C10_explicit_none_fields_witness :
    (none : Option ℚ) = none ∧ (some (0 : ℚ)) = some 0 := by
  have h := C10_explicit_none_fields.1
    { name := some "NoneLine", from_bus := some DCBus.example.toBus,
      to_bus := some DCBus.example.toBus,
      resistance := some none } _ rfl
  exact ⟨h.1 rfl, h.2.2.2.1 rfl⟩

end R2X
